import Mathlib

/-!
Verification of the adaptive panel placement and draggable-position
persistence subsystem of the daggerheart-gm-hud module, together with the
resource-adjustment and range-template helpers of the same application
(module/apps/dgm-adversary-hud.mjs).

Pixel quantities are modelled as rationals; DOM elements are modelled by
the fields the code reads from them; the effects of each handler (style
properties set, attributes set, value persisted) are modelled as the
returned value, with `none` standing for an early return that performs no
effect.
-/

namespace GMHud

/-- Direction a popover panel opens, the value of the data-open-dir
attribute set by setGMPanelOpenDirection. -/
inductive Dir
  | up
  | down
deriving DecidableEq

/-- Vertical extent of the bounding client rect of the HUD container, the
two fields of `hudContainer.getBoundingClientRect()` the code reads. -/
structure Rect where
  top : ℚ
  bottom : ℚ
deriving DecidableEq

/-- The popover panel element as observed by setGMPanelOpenDirection:
its scrollHeight, and the result of the container lookup
`panel.closest(".dgm-container") || panel.closest(".dgm-hud") || panel.parentElement`
(`none` when no HUD container is found). -/
structure Panel where
  scrollHeight : ℚ
  hudContainer : Option Rect

/-- The placement decision applied to the panel: the data-open-dir
attribute, the --dgm-panel-maxh CSS variable, and the --dgm-panel-gap
CSS variable. -/
structure PanelPlacement where
  dir : Dir
  maxHeightPx : ℚ
  gapPx : ℚ
deriving DecidableEq

/-- Source line `const contentHeight = panel.scrollHeight || 320;`.
A scrollHeight of 0 is falsy in JavaScript, so it falls back to 320. -/
def contentHeightOf (scrollHeight : ℚ) : ℚ :=
  if scrollHeight = 0 then 320 else scrollHeight

/-- Source line `const maxContentHeight = Math.min(window.innerHeight * 0.7, 500);`. -/
def maxContentHeightOf (innerHeight : ℚ) : ℚ :=
  min (innerHeight * (7/10)) 500

/-- Source line `const need = Math.max(minRoom, Math.min(contentHeight, maxContentHeight));`
with `minRoom = 220`. -/
def needOf (scrollHeight innerHeight : ℚ) : ℚ :=
  max 220 (min (contentHeightOf scrollHeight) (maxContentHeightOf innerHeight))

/-- The required-room estimate as the spec words it:
need = clamp(popoverContentHeight, minRoom=220, maxAllowed = min(viewportHeight*0.7, 500)).
Stated from the spec, for comparison with `needOf`. -/
def needSpec (contentHeight innerHeight : ℚ) : ℚ :=
  max 220 (min contentHeight (min (innerHeight * (7/10)) 500))

/-- Source lines
`if (spaceBelow >= need) dir = "down";
 else if (spaceAbove >= need) dir = "up";
 else dir = (spaceBelow >= spaceAbove) ? "down" : "up";`. -/
def chooseDir (spaceBelow spaceAbove need : ℚ) : Dir :=
  if spaceBelow ≥ need then .down
  else if spaceAbove ≥ need then .up
  else if spaceBelow ≥ spaceAbove then .down else .up

/-- Source lines
`const maxH = (dir === "down" ? Math.max(180, spaceBelow - margin) : Math.max(180, spaceAbove - margin));`
with `margin = 12`. -/
def maxHOf (dir : Dir) (spaceBelow spaceAbove : ℚ) : ℚ :=
  match dir with
  | .down => max 180 (spaceBelow - 12)
  | .up => max 180 (spaceAbove - 12)

/-- The placement engine `setGMPanelOpenDirection(panel)`.  Returns the
effects applied to the panel (direction attribute, max height variable,
gap variable), or `none` on the two early returns: panel absent, or no
HUD container found.  `innerHeight` is `window.innerHeight`. -/
def setGMPanelOpenDirection (panel : Option Panel) (innerHeight : ℚ) :
    Option PanelPlacement :=
  match panel with
  | none => none
  | some p =>
    match p.hudContainer with
    | none => none
    | some rect =>
      let spaceAbove := rect.top
      let spaceBelow := innerHeight - rect.bottom
      let need := needOf p.scrollHeight innerHeight
      let dir := chooseDir spaceBelow spaceAbove need
      let maxH := maxHOf dir spaceBelow spaceAbove
      let finalMaxHeight := min maxH (maxContentHeightOf innerHeight)
      some { dir := dir, maxHeightPx := finalMaxHeight, gapPx := 8 }

/-- A screen position in pixels (style left and top of the container). -/
structure Pos where
  left : ℚ
  top : ℚ
deriving DecidableEq

/-- The closure state of _enableDragging at the time a pointer event
arrives: the isDragging flag, the pointer-down coordinates
(startX, startY) and the container origin (startLeft, startTop). -/
structure DragState where
  isDragging : Bool
  startX : ℚ
  startY : ℚ
  startLeft : ℚ
  startTop : ℚ

/-- The onMove pointermove handler of _enableDragging.  Returns the new
container position it writes to `root.style.left` and `root.style.top`,
or `none` on the `if (!isDragging) return;` early exit.
`clientX`, `clientY` are the pointer coordinates; `innerWidth`,
`innerHeight` are the window dimensions. -/
def onMove (st : DragState) (clientX clientY innerWidth innerHeight : ℚ) :
    Option Pos :=
  if st.isDragging then
    let dx := clientX - st.startX
    let dy := clientY - st.startY
    let newLeft := max 0 (min (st.startLeft + dx) (innerWidth - 200))
    let newTop := max 0 (min (st.startTop + dy) (innerHeight - 200))
    some ⟨newLeft, newTop⟩
  else none

/-- The position persisted by the onUp handler:
`{ left: Math.round(rect.left), top: Math.round(rect.top) }`. -/
structure SavedPos where
  left : ℤ
  top : ℤ
deriving DecidableEq

/-- The observable effects of the onUp pointerup handler: the visual
position of the container when the handler finishes, the value handed to
`game.user.setFlag(..., "hudPosition", pos)`, whether an exception
escaped the handler, and whether the catch branch logged a persistence
failure. -/
structure OnUpEffects where
  visual : Pos
  saved : SavedPos
  threw : Bool
  loggedError : Bool
deriving DecidableEq

/-- The onUp pointerup handler of _enableDragging.  `rect` is the
bounding rect position of the container at release time (which onUp
reads but never writes: the handler contains no assignment to
`root.style.left` or `root.style.top`).  `persistFails` says whether the
awaited `setFlag` call rejects; the try/catch turns a rejection into a
debugLog call.  `none` models the `if (!isDragging) return;` exit. -/
def onUpRun (isDragging : Bool) (rect : Pos) (persistFails : Bool) :
    Option OnUpEffects :=
  if isDragging then
    some { visual := rect
           saved := ⟨round rect.left, round rect.top⟩
           threw := false
           loggedError := persistFails }
  else none

/-- Outcome of _restorePosition: `noop` for the `if (!root) return;`
exit, `restored l t` when a saved position was applied as style left and
top, `defaultPos` for the default center-bottom styling branch. -/
inductive RestoreOutcome
  | noop
  | restored (left top : ℚ)
  | defaultPos
deriving DecidableEq

/-- The _restorePosition method.  `saved` is the value read back from
`game.user.getFlag("daggerheart-gm-hud", "hudPosition")` (`none` when the
flag is unset or lacks left or top).  A present position is applied as
`Math.max(0, Math.min(savedPos.left, window.innerWidth - 200))` and
likewise for top against innerHeight. -/
def restorePosition (hasRoot : Bool) (saved : Option SavedPos)
    (innerWidth innerHeight : ℚ) : RestoreOutcome :=
  if hasRoot then
    match saved with
    | some p =>
      .restored (max 0 (min (p.left : ℚ) (innerWidth - 200)))
        (max 0 (min (p.top : ℚ) (innerHeight - 200)))
    | none => .defaultPos
  else .noop

/-- The _adjustResource method on its numeric core:
`const next = Math.min(max, Math.max(min, current + delta)); if (next === current) return;`
followed by an actor update writing `next`.  Returns the written value,
or `none` when no update is issued. -/
def adjustResource (current delta mn mx : ℚ) : Option ℚ :=
  let next := min mx (max mn (current + delta))
  if next = current then none else some next

/-- The `squaresByRange` lookup table inside _createRangeTemplate. -/
def squaresByRange (r : String) : Option ℕ :=
  if r = "melee" then some 1
  else if r = "veryclose" then some 3
  else if r = "close" then some 6
  else if r = "far" then some 12
  else if r = "veryfar" then some 13
  else none

/-- The fields of the created MeasuredTemplate document that the range
logic determines: the template type and its distance in scene units. -/
structure TemplateData where
  t : String
  distance : ℚ
deriving DecidableEq

/-- The _createRangeTemplate method.  `r` is the normalized range string
`String(range ?? "").toLowerCase().trim()`.  `canvasReady` and `hasScene`
model `canvas?.ready` and `canvas.scene`; `hasToken` models whether
`this.token ?? canvas.tokens.controlled[0]` yields a token; `gridDistance`
models `canvas.scene.grid.distance` with the `?? 5` fallback.  Returns
the type and distance of the created template
(`distance = squares * unitsPerSquare`), or `none` on any early return. -/
def createRangeTemplate (canvasReady hasScene : Bool) (r : String)
    (hasToken : Bool) (gridDistance : Option ℚ) : Option TemplateData :=
  if canvasReady && hasScene then
    match squaresByRange r with
    | none => none
    | some squares =>
      if squares = 0 ∨ r = "melee" ∨ r = "veryfar" then none
      else if hasToken then
        let unitsPerSquare := gridDistance.getD 5
        some ⟨"circle", (squares : ℚ) * unitsPerSquare⟩
      else none
  else none

/-- Helper: the pre-clamp height `maxH` is at least 180 in both
directions. -/
theorem maxHOf_ge (dir : Dir) (sb sa : ℚ) : 180 ≤ maxHOf dir sb sa := by
  cases dir <;> exact le_max_left _ _

/-- Claim C1, counterexample: at viewport height 100 with a panel of
scroll height 300 anchored at a container spanning tops 10 to 20, the
final max height written by setGMPanelOpenDirection is 70, which is
below the claimed 180 pixel floor. -/
theorem C1_counterexample :
    (setGMPanelOpenDirection (some ⟨300, some ⟨10, 20⟩⟩) 100).map
        PanelPlacement.maxHeightPx = some 70 ∧ ¬ ((180:ℚ) ≤ 70) := by
  constructor
  · norm_num [setGMPanelOpenDirection, needOf, contentHeightOf,
      maxContentHeightOf, chooseDir, maxHOf]
  · norm_num

/-- Claim C1, amended: for every viewport height and panel geometry the
placement computation sets a final max height of at least
min(180, min(viewportHeight*0.7, 500)); the 180 pixel floor therefore
holds whenever min(viewportHeight*0.7, 500) is at least 180, but a
degenerate very small viewport can yield less than 180. -/
theorem C1_amended_height_floor (sh top bottom ih : ℚ) :
    ∃ pl, setGMPanelOpenDirection (some ⟨sh, some ⟨top, bottom⟩⟩) ih = some pl ∧
      min 180 (min (ih * (7/10)) 500) ≤ pl.maxHeightPx := by
  refine ⟨_, rfl, ?_⟩
  exact min_le_min (maxHOf_ge _ _ _) le_rfl

/-- Claim C2: the direction decision of the placement computation is
down exactly when spaceBelow is at least need, or both sides fall short
of need and spaceBelow is at least spaceAbove (ties included); it is up
exactly when spaceBelow falls short of need and spaceAbove reaches it,
or both sides fall short and spaceAbove is strictly larger. -/
theorem C2_direction_choice (sb sa need : ℚ) :
    (chooseDir sb sa need = .down ↔
      need ≤ sb ∨ (sb < need ∧ sa < need ∧ sa ≤ sb)) ∧
    (chooseDir sb sa need = .up ↔
      (sb < need ∧ need ≤ sa) ∨ (sb < need ∧ sa < need ∧ sb < sa)) := by
  unfold chooseDir
  split_ifs with h1 h2 h3
  · refine ⟨?_, ?_⟩
    · simp only [eq_self_iff_true, true_iff]
      exact Or.inl h1
    · simp only [reduceCtorEq, false_iff]
      rintro (⟨hx, _⟩ | ⟨hx, _, _⟩) <;> linarith
  · refine ⟨?_, ?_⟩
    · simp only [reduceCtorEq, false_iff]
      push_neg at h1
      rintro (hx | ⟨hx, hy, hz⟩) <;> linarith
    · simp only [eq_self_iff_true, true_iff]
      push_neg at h1
      exact Or.inl ⟨h1, h2⟩
  · refine ⟨?_, ?_⟩
    · simp only [eq_self_iff_true, true_iff]
      push_neg at h1 h2
      exact Or.inr ⟨h1, h2, h3⟩
    · simp only [reduceCtorEq, false_iff]
      push_neg at h1 h2
      rintro (⟨hx, hy⟩ | ⟨hx, hy, hz⟩) <;> linarith
  · refine ⟨?_, ?_⟩
    · simp only [reduceCtorEq, false_iff]
      push_neg at h1 h2 h3
      rintro (hx | ⟨hx, hy, hz⟩) <;> linarith
    · simp only [eq_self_iff_true, true_iff]
      push_neg at h1 h2 h3
      exact Or.inr ⟨h1, h2, h3⟩

/-- Claim C3, counterexample: at content height 0 and viewport height
800 the code computes need = 320 (the `scrollHeight || 320` fallback),
while the claimed clamp formula gives 220, so the claimed equation fails
at H = 0. -/
theorem C3_counterexample :
    needOf 0 800 = 320 ∧ needSpec 0 800 = 220 ∧ (320:ℚ) ≠ 220 := by
  refine ⟨?_, ?_, by norm_num⟩ <;>
    norm_num [needOf, needSpec, contentHeightOf, maxContentHeightOf]

/-- Claim C3, amended: for every nonzero popover content height H and
every viewport height V, the required-room estimate equals
max(220, min(H, min(V*0.7, 500))); at H = 0 the code instead substitutes
the default content height 320 before clamping. -/
theorem C3_amended_need_formula (contentHeight innerHeight : ℚ)
    (h : contentHeight ≠ 0) :
    needOf contentHeight innerHeight = needSpec contentHeight innerHeight := by
  simp [needOf, needSpec, contentHeightOf, maxContentHeightOf, h]

/-- Claim C3, witness for the amended theorem at H = 600, V = 800. -/
theorem C3_amended_witness :
    (600:ℚ) ≠ 0 ∧ needOf 600 800 = needSpec 600 800 :=
  ⟨by norm_num, C3_amended_need_formula 600 800 (by norm_num)⟩

/-- Claim C4, counterexample: at content height 600 and viewport height
800 the required-room estimate is 500, not 560 as the claim asserts
(the claim computes maxAllowed as 500*0.7 instead of
min(800*0.7, 500) = 500), so the larger-space tie-break is not what
fires there. -/
theorem C4_counterexample :
    needOf 600 800 = 500 ∧ (500:ℚ) ≠ 560 := by
  constructor
  · norm_num [needOf, contentHeightOf, maxContentHeightOf]
  · norm_num

/-- Claim C4, amended: on popover content height 600, viewport height
800, anchor container top 500 and bottom 560, need evaluates to 500, the
space above (500) reaches need so the prefer-up branch fires, and the
computation chooses direction up with final max height 488 (and the gap
variable 8). -/
theorem C4_amended_concrete_scenario :
    setGMPanelOpenDirection (some ⟨600, some ⟨500, 560⟩⟩) 800 =
      some ⟨Dir.up, 488, 8⟩ ∧ needOf 600 800 = 500 := by
  constructor
  · norm_num [setGMPanelOpenDirection, needOf, contentHeightOf,
      maxContentHeightOf, chooseDir, maxHOf]
  · norm_num [needOf, contentHeightOf, maxContentHeightOf]

/-- Claim C5: when the popover panel is absent, or no HUD container can
be found for it, setGMPanelOpenDirection performs no effects at all (no
direction attribute, no height or gap property) and returns without
error. -/
theorem C5_missing_elements_noop :
    (∀ ih : ℚ, setGMPanelOpenDirection none ih = none) ∧
    (∀ sh ih : ℚ, setGMPanelOpenDirection (some ⟨sh, none⟩) ih = none) := by
  exact ⟨fun _ => rfl, fun _ _ => rfl⟩

/-- Claim C6: during an active drag, a pointer move with delta (dx, dy)
from the drag start moves the container to the drag-start origin plus
the delta, clamped componentwise into [0, innerWidth - 200] and
[0, innerHeight - 200] (200 being the minimum visible margin). -/
theorem C6_drag_clamp (st : DragState) (dx dy innerWidth innerHeight : ℚ)
    (h : st.isDragging = true) :
    onMove st (st.startX + dx) (st.startY + dy) innerWidth innerHeight =
      some ⟨max 0 (min (st.startLeft + dx) (innerWidth - 200)),
            max 0 (min (st.startTop + dy) (innerHeight - 200))⟩ := by
  simp only [onMove, h, if_true]
  have hx : st.startX + dx - st.startX = dx := by ring
  have hy : st.startY + dy - st.startY = dy := by ring
  rw [hx, hy]

/-- Claim C6, witness: origin (100,100) with pointer delta (+50,+30)
inside a 1920 by 1080 viewport lands at (150,130). -/
theorem C6_drag_clamp_witness :
    onMove ⟨true, 0, 0, 100, 100⟩ (0 + 50) (0 + 30) 1920 1080 =
      some ⟨150, 130⟩ := by
  rw [C6_drag_clamp ⟨true, 0, 0, 100, 100⟩ 50 30 1920 1080 rfl]
  norm_num

/-- Claim C7: the value the drag-end handler hands to the persistence
store is exactly the release position rounded to integers, and a
subsequent restore with an unchanged viewport applies that exact
position back whenever it lies inside the restore-time clamp range
[0, innerWidth - 200] x [0, innerHeight - 200] (the only restore-time
validation being that clamp). -/
theorem C7_persist_roundtrip (l t innerWidth innerHeight : ℚ) (pf : Bool)
    (hl0 : (0:ℚ) ≤ (round l : ℚ)) (hl1 : ((round l : ℤ) : ℚ) ≤ innerWidth - 200)
    (ht0 : (0:ℚ) ≤ (round t : ℚ)) (ht1 : ((round t : ℤ) : ℚ) ≤ innerHeight - 200) :
    (onUpRun true ⟨l, t⟩ pf).map OnUpEffects.saved = some ⟨round l, round t⟩ ∧
    restorePosition true (some ⟨round l, round t⟩) innerWidth innerHeight =
      RestoreOutcome.restored (round l) (round t) := by
  constructor
  · rfl
  · simp only [restorePosition, if_true]
    rw [min_eq_left hl1, max_eq_right hl0, min_eq_left ht1, max_eq_right ht0]

/-- Claim C7, witness: a drag released at (200, 75) in a 1920 by 1080
viewport persists exactly left 200, top 75, and restoring applies
(200, 75) back. -/
theorem C7_persist_roundtrip_witness :
    (onUpRun true ⟨200, 75⟩ false).map OnUpEffects.saved = some ⟨200, 75⟩ ∧
    restorePosition true (some ⟨200, 75⟩) 1920 1080 =
      RestoreOutcome.restored 200 75 := by
  have h := C7_persist_roundtrip 200 75 1920 1080 false
    (by norm_num) (by norm_num) (by norm_num) (by norm_num)
  have hl : round ((200:ℚ)) = 200 := by norm_num
  have ht : round ((75:ℚ)) = 75 := by norm_num
  rw [hl, ht] at h
  exact_mod_cast h

/-- Claim C8: when the persistence write at drag end fails, the failure
is caught and logged, no exception escapes the handler, and the visual
position of the container is exactly the release position (the handler
never writes the container style, so nothing is rolled back). -/
theorem C8_persist_failure_no_rollback (p : Pos) (persistFails : Bool) :
    ∃ eff, onUpRun true p persistFails = some eff ∧
      eff.visual = p ∧ eff.threw = false ∧ eff.loggedError = persistFails :=
  ⟨_, rfl, rfl, rfl, rfl⟩

/-- Claim C9: every value _adjustResource writes equals the current
value plus delta clamped into [mn, mx] (hence lies in [mn, mx]), and
when that clamped result equals the current value no update is issued
at all. -/
theorem C9_adjust_resource_clamped (current delta mn mx : ℚ) (h : mn ≤ mx) :
    (∀ v, adjustResource current delta mn mx = some v →
      v = min mx (max mn (current + delta)) ∧ mn ≤ v ∧ v ≤ mx) ∧
    (min mx (max mn (current + delta)) = current →
      adjustResource current delta mn mx = none) := by
  unfold adjustResource
  by_cases hc : min mx (max mn (current + delta)) = current
  · refine ⟨?_, fun _ => if_pos hc⟩
    intro v hv
    rw [if_pos hc] at hv
    exact absurd hv (by simp)
  · refine ⟨?_, fun hx => absurd hx hc⟩
    intro v hv
    rw [if_neg hc] at hv
    have hv' : min mx (max mn (current + delta)) = v := by
      exact Option.some.inj hv
    refine ⟨hv'.symm, ?_, ?_⟩
    · rw [← hv']
      exact le_min h (le_max_left _ _)
    · rw [← hv']
      exact min_le_left _ _

/-- Claim C9, witness: adjusting from 5 by +1 within [0, 10] writes 6,
which equals the clamp and lies inside the bounds. -/
theorem C9_adjust_resource_witness :
    (0:ℚ) ≤ 10 ∧ adjustResource 5 1 0 10 = some 6 ∧
      ((6:ℚ) = min 10 (max 0 (5 + 1)) ∧ (0:ℚ) ≤ 6 ∧ (6:ℚ) ≤ 10) := by
  refine ⟨by norm_num, by norm_num [adjustResource], ?_⟩
  exact (C9_adjust_resource_clamped 5 1 0 10 (by norm_num)).1 6
    (by norm_num [adjustResource])

/-- Claim C10: _createRangeTemplate creates nothing for the ranges melee
and veryfar and for any range outside the lookup table; for veryclose,
close and far it creates a circular template whose distance is 3, 6 and
12 grid squares respectively, each times the scene grid distance. -/
theorem C10_range_template (canvasReady hasScene hasToken : Bool)
    (gd : Option ℚ) :
    createRangeTemplate canvasReady hasScene "melee" hasToken gd = none ∧
    createRangeTemplate canvasReady hasScene "veryfar" hasToken gd = none ∧
    (∀ r : String, squaresByRange r = none →
      createRangeTemplate canvasReady hasScene r hasToken gd = none) ∧
    createRangeTemplate true true "veryclose" true gd =
      some ⟨"circle", 3 * gd.getD 5⟩ ∧
    createRangeTemplate true true "close" true gd =
      some ⟨"circle", 6 * gd.getD 5⟩ ∧
    createRangeTemplate true true "far" true gd =
      some ⟨"circle", 12 * gd.getD 5⟩ := by
  refine ⟨?_, ?_, ?_, ?_, ?_, ?_⟩
  · cases canvasReady <;> cases hasScene <;> cases hasToken <;>
      simp [createRangeTemplate, squaresByRange]
  · cases canvasReady <;> cases hasScene <;> cases hasToken <;>
      simp [createRangeTemplate, squaresByRange]
  · intro r hr
    cases canvasReady <;> cases hasScene <;>
      simp [createRangeTemplate, hr]
  · simp [createRangeTemplate, squaresByRange]
  · simp [createRangeTemplate, squaresByRange]
  · simp [createRangeTemplate, squaresByRange]

/-- Claim C10, witness: the unrecognized range string "bogus" is outside
the lookup table and produces no template. -/
theorem C10_range_template_witness :
    squaresByRange "bogus" = none ∧
    createRangeTemplate true true "bogus" true (some 5) = none := by
  have hb : squaresByRange "bogus" = none := by
    simp [squaresByRange]
  exact ⟨hb, (C10_range_template true true true (some 5)).2.2.1 "bogus" hb⟩

end GMHud
